import Mathlib

/-!
Verification development for the favicon route handler of `m-nav`
(`apps/web/app/favicon/[domain]/route.ts`).

The file contains a shallow embedding of the two variants of the `GET`
handler (Variant A: nodejs runtime with a Keyv result cache; Variant B:
edge runtime without a cache), over an environment record that models the
external collaborators (`new URL(...).hostname`, `getFavicons`,
`proxyFavicon`, `fetch`, the clock).  Theorems about the embedding settle
the specification claims.
-/

set_option autoImplicit false

namespace Favicon

/-- Lowercase ASCII letter or digit, i.e. the character class `[a-z0-9]`
of the validation regular expression. -/
def isAlnum (c : Char) : Bool :=
  (('a' ≤ c && c ≤ 'z') || ('0' ≤ c && c ≤ '9'))

/-- The character class `[a-z0-9-]` of the validation regular expression. -/
def isLdh (c : Char) : Bool :=
  isAlnum c || c = '-'

/-- Helper for `validate`: after at least one trailing `[a-z0-9]` character
has been consumed (the input is the rest of the string, reversed), checks
that the remaining trailing alphanumeric run is followed (to the left) by a
dot which is itself preceded by a `[a-z0-9-]` character. -/
def checkRev : List Char → Bool
  | [] => false
  | c :: rest =>
    if isAlnum c then checkRev rest
    else if c = '.' then
      match rest with
      | [] => false
      | d :: _ => isLdh d
    else false

/-- Embedding of the test `/([a-z0-9-]+\.)+[a-z0-9]{1,}$/.test(asciiDomain)`
(route.ts line 60 and line 198).  The regular expression is anchored only at
the end of the string, so the test succeeds exactly when the string ends in a
nonempty `[a-z0-9]` run preceded by a `.` preceded by a `[a-z0-9-]`
character; we check this from the reversed character list. -/
def validate (s : String) : Bool :=
  match s.data.reverse with
  | [] => false
  | c :: rest => isAlnum c && checkRev rest

/-- `domain.charAt(0).toUpperCase()` (route.ts lines 43 and 181). -/
def upperFirst (s : String) : String :=
  match s.data with
  | [] => ""
  | c :: _ => String.mk [c.toUpper]

/-- The SVG placeholder template literal (route.ts lines 44-49 and 182-187),
with the interpolated `firstLetter`. -/
def svgContent (firstLetter : String) : String :=
  "\n        <svg width=\"100\" height=\"100\" xmlns=\"http://www.w3.org/2000/svg\">\n          <rect width=\"100%\" height=\"100%\" fill=\"#cccccc\"/>\n          <text x=\"50%\" y=\"50%\" font-size=\"48\" text-anchor=\"middle\" dominant-baseline=\"middle\" fill=\"#000000\">"
    ++ firstLetter ++ "</text>\n        </svg>\n      "

/-- A response body: either text (SVG placeholder, error message) or raw
bytes (icon payloads). -/
inductive Body where
  | text (s : String)
  | bytes (b : List Nat)
  deriving DecidableEq, Repr

/-- An HTTP response as constructed by the handler: status, the explicitly
set headers in source order, and the body. -/
structure Response where
  status : Nat
  headers : List (String × String)
  body : Body
  deriving DecidableEq, Repr

/-- The header `(k, v)` is explicitly set on response `r`. -/
def hasHeader (r : Response) (k v : String) : Prop :=
  (k, v) ∈ r.headers

instance (r : Response) (k v : String) : Decidable (hasHeader r k v) := by
  unfold hasHeader; infer_instance

/-- The `svg404` closure (route.ts lines 42-57 and 180-195): a 404 response
whose body is the SVG placeholder embedding the uppercased first character
of the original, unnormalized `domain` parameter. -/
def svg404 (domain : String) : Response :=
  { status := 404
    headers := [("Cache-Control", "public, max-age=86400"),
                ("Content-Type", "image/svg+xml")]
    body := Body.text (svgContent (upperFirst domain)) }

/-- `new Response('Failed to fetch the icon', { status: 500 })`
(route.ts lines 165 and 283). -/
def resp500 : Response :=
  { status := 500
    headers := []
    body := Body.text "Failed to fetch the icon" }

/-- An icon descriptor as produced by the discovery collaborator:
`{ sizes?: string; href: string }`. -/
structure Icon where
  href : String
  sizes : Option String
  deriving DecidableEq, Repr

/-- The observable outcome of `fetch(selectedIcon.href, { headers })`
together with reading the body: HTTP ok-ness, the body bytes, and the
`Content-Type` response header if present. -/
structure Fetched where
  ok : Bool
  body : List Nat
  contentType : Option String
  deriving DecidableEq, Repr

/-- A value stored in the Variant A cache:
`{ buffer: Buffer; contentType: string }`. -/
structure CacheEntry where
  buffer : List Nat
  contentType : String
  deriving DecidableEq, Repr

/-- A Keyv slot: the stored value plus its absolute expiry time
(`Date.now() + ttl` at write time). -/
structure StoredEntry where
  value : CacheEntry
  expires : Nat
  deriving DecidableEq, Repr

/-- The Variant A cache state (`const cache = new Keyv()`), as an
association list from normalized domains to stored entries. -/
abbrev Cache := List (String × StoredEntry)

/-- `cache.get(key)` at time `now`: Keyv returns the stored value unless
`Date.now()` is strictly past the entry's expiry. -/
def cacheGet (c : Cache) (k : String) (now : Nat) : Option CacheEntry :=
  match c.find? (fun p => p.1 == k) with
  | some p => if now ≤ p.2.expires then some p.2.value else none
  | none => none

/-- `cache.set(key, value, ttl)` at time `now`: stores the value with
absolute expiry `now + ttl`, replacing any previous entry for the key. -/
def cacheSet (c : Cache) (k : String) (v : CacheEntry) (ttl : Nat) (now : Nat) : Cache :=
  (k, ⟨v, now + ttl⟩) :: c.filter (fun p => p.1 != k)

/-- Invariant: every key stored in the cache passes the validation test. -/
def cacheValid (c : Cache) : Prop :=
  ∀ p ∈ c, validate p.1 = true

/-- The environment of external collaborators and the clock, over which the
handler embedding is parameterized.  `parseHost u` models
`new URL(u).hostname` (`none` means the constructor throws); `favicons`
models `getFavicons` (`none` means the promise rejects); `fetchIcon` models
`fetch` plus reading the body (`none` means it throws); `proxy` models
`proxyFavicon`; `reqTime` is `Date.now()` during the request and `dur` the
elapsed milliseconds reported in `X-Execution-Time`. -/
structure Env where
  parseHost : String → Option String
  favicons : String → List (String × String) → Option (List Icon)
  fetchIcon : String → List (String × String) → Option Fetched
  proxy : String → Response
  reqTime : Nat
  dur : Nat

/-- ASCII lowercasing of a header name, for the case-insensitive
`Headers.delete`. -/
def lowerName (s : String) : String :=
  String.mk (s.data.map Char.toLower)

/-- `new Headers(request.headers)` followed by `headers.delete('host')` and
`headers.delete('Content-Length')` (route.ts lines 67-69 and 205-207). -/
def cleanHeaders (hs : List (String × String)) : List (String × String) :=
  hs.filter (fun p => lowerName p.1 != "host" && lowerName p.1 != "content-length")

/-- `String.prototype.includes`: `s` contains `pat` as a contiguous
substring. -/
def listIncludes (s pat : List Char) : Bool :=
  if pat.isPrefixOf s then true
  else
    match s with
    | [] => false
    | _ :: t => listIncludes t pat

/-- `selectedIcon.href.includes('data:image')` (route.ts lines 99 and 237). -/
def includesDataImage (href : String) : Bool :=
  listIncludes href.data "data:image".data

/-- `String.prototype.split(',')` over the character list: splits at every
comma, keeping empty segments, so that `"".split(',')` is `[""]`. -/
def splitCommaList : List Char → List (List Char)
  | [] => [[]]
  | c :: rest =>
    if c = ',' then [] :: splitCommaList rest
    else
      match splitCommaList rest with
      | [] => [[c]]
      | p :: ps => (c :: p) :: ps

/-- `selectedIcon.href.split(',')[1]` combined with the truthiness test
`if (base64Data)` (route.ts lines 100-101 and 238-239): the segment after
the first comma, provided it exists and is nonempty (both `undefined` and
the empty string are falsy). -/
def commaPayload (href : String) : Option String :=
  match (splitCommaList href.data).get? 1 with
  | some p => if p = [] then none else some (String.mk p)
  | none => none

/-- The 6-bit value of a base64 alphabet character (Node also accepts the
URL-safe alphabet); characters outside the alphabet are skipped by
`Buffer.from(_, 'base64')`, except `=`, which halts decoding (handled in
`b64Vals`). -/
def b64Val (c : Char) : Option Nat :=
  if 'A' ≤ c && c ≤ 'Z' then some (c.toNat - 'A'.toNat)
  else if 'a' ≤ c && c ≤ 'z' then some (c.toNat - 'a'.toNat + 26)
  else if '0' ≤ c && c ≤ '9' then some (c.toNat - '0'.toNat + 52)
  else if c = '+' || c = '-' then some 62
  else if c = '/' || c = '_' then some 63
  else none

/-- Collects the 6-bit values of a base64 payload the way Node's decoder
does: characters outside the alphabet are skipped, but the first `=`
stops decoding entirely (e.g. `'AA==BB'` decodes to one byte and `'=bad'`
to zero bytes). -/
def b64Vals : List Char → List Nat
  | [] => []
  | c :: rest =>
    if c = '=' then []
    else
      match b64Val c with
      | some v => v :: b64Vals rest
      | none => b64Vals rest

/-- Packs a list of 6-bit values into bytes, dropping fewer than 8 leftover
bits, as Node's forgiving base64 decoder does. -/
def packB64 : List Nat → List Nat
  | a :: b :: c :: d :: rest =>
    (a * 4 + b / 16) :: ((b % 16) * 16 + c / 4) :: ((c % 4) * 64 + d) :: packB64 rest
  | [a, b, c] => [a * 4 + b / 16, (b % 16) * 16 + c / 4]
  | [a, b] => [a * 4 + b / 16]
  | _ => []

/-- `Buffer.from(base64Data, 'base64')` (route.ts lines 102 and 240):
6-bit values up to the first `=` packed into bytes. -/
def base64Decode (s : String) : List Nat :=
  packB64 (b64Vals s.data)

/-- A JS regex line terminator, which `.` does not match: `\n`, `\r`,
U+2028 or U+2029. -/
def isLineTerm (c : Char) : Prop :=
  c = '\n' ∨ c = '\r' ∨ c = '\u2028' ∨ c = '\u2029'

instance (c : Char) : Decidable (isLineTerm c) := by
  unfold isLineTerm; infer_instance

/-- Lazy part of the regex `data:(image.*?);`: consumes characters (none of
which may be a line terminator) up to the first `;`, returning the consumed
characters and the remainder after the `;`. -/
def lazyToSemi : List Char → Option (List Char × List Char)
  | [] => none
  | c :: rest =>
    if c = ';' then some ([], rest)
    else if isLineTerm c then none
    else
      match lazyToSemi rest with
      | some p => some (c :: p.1, p.2)
      | none => none

/-- The trailing `.*` of the regex `data:(image.*?);.*`: greedily consumes
to the end of the line. -/
def dropLine : List Char → List Char
  | [] => []
  | c :: rest => if isLineTerm c then c :: rest else dropLine rest

/-- Attempts to match the regex `data:(image.*?);.*` at the head of the
list, returning the capture (`image` followed by the lazily matched run)
and the characters left after the whole match. -/
def tryMatchAt (l : List Char) : Option (List Char × List Char) :=
  if ("data:image".data).isPrefixOf l then
    match lazyToSemi (l.drop 10) with
    | some p => some ("image".data ++ p.1, dropLine p.2)
    | none => none
  else none

/-- Scans for the leftmost match of `data:(image.*?);.*` and replaces it
with the capture, leaving the string unchanged when there is no match. -/
def replaceScan : List Char → List Char
  | [] => []
  | c :: rest =>
    match tryMatchAt (c :: rest) with
    | some p => p.1 ++ p.2
    | none => c :: replaceScan rest

/-- `selectedIcon.href.replace(/data:(image.*?);.*/, '$1')` (route.ts
lines 103-106 and 249-252). -/
def dataUriContentType (href : String) : String :=
  String.mk (replaceScan href.data)

/-- `iconResponse.headers.get('Content-Type') || 'image/png'` (route.ts
lines 139 and 276): the header value when present and nonempty, otherwise
the default. -/
def ctDefault (o : Option String) : String :=
  match o with
  | some s => if s = "" then "image/png" else s
  | none => "image/png"

/-- One `getFavicons` attempt (route.ts lines 72-78 / 82-88 and 210-216 /
220-226): the icon list on success, the empty list when the call rejects. -/
def attemptIcons (env : Env) (url : String) (hdrs : List (String × String)) : List Icon :=
  match env.favicons url hdrs with
  | some d => d
  | none => []

/-- The discovery phase (route.ts lines 71-89 and 209-227): try
`http://<key>`; if that produced zero icons, retry with `https://<key>`. -/
def discoverIcons (env : Env) (key : String) (hdrs : List (String × String)) : List Icon :=
  if (attemptIcons env ("http://" ++ key) hdrs).length = 0 then
    attemptIcons env ("https://" ++ key) hdrs
  else
    attemptIcons env ("http://" ++ key) hdrs

/-- The Variant A cache-hit response (route.ts lines 31-40). -/
def hitResponse (e : CacheEntry) (dur : Nat) : Response :=
  { status := 200
    headers := [("Cache-Control", "public, max-age=86400"),
                ("Content-Type", e.contentType),
                ("Content-Length", toString e.buffer.length),
                ("X-Cache", "HIT"),
                ("X-Execution-Time", toString dur ++ "ms")]
    body := Body.bytes e.buffer }

/-- The Variant A remote-fetch path (route.ts lines 136-162): a fetch
failure is caught by the surrounding try and yields the 500 response, a
non-ok status yields the placeholder, and success caches and returns the
bytes with the (defaulted) upstream content type. -/
def fetchPathA (env : Env) (domain key : String) (hdrs : List (String × String))
    (cache : Cache) (href : String) : Response × Cache :=
  match env.fetchIcon href hdrs with
  | none => (resp500, cache)
  | some fr =>
    if !fr.ok then (svg404 domain, cache)
    else
      ({ status := 200
         headers := [("Cache-Control", "public, max-age=86400"),
                     ("Content-Type", ctDefault fr.contentType),
                     ("Content-Length", toString fr.body.length),
                     ("X-Cache", "MISS"),
                     ("X-Execution-Time", toString env.dur ++ "ms")]
         body := Body.bytes fr.body },
       cacheSet cache key ⟨fr.body, ctDefault fr.contentType⟩ (24 * 60 * 60 * 1000) env.reqTime)

/-- The Variant A icon-retrieval stage (route.ts lines 95-166): select
`icons[0]`; serve a data-URI with a nonempty payload inline (caching it),
fall through to the remote fetch otherwise. -/
def resolveA (env : Env) (domain key : String) (hdrs : List (String × String))
    (cache : Cache) (icons : List Icon) : Response × Cache :=
  match icons.head? with
  | none => (svg404 domain, cache)
  | some sel =>
    if includesDataImage sel.href then
      match commaPayload sel.href with
      | some payload =>
        ({ status := 200
           headers := [("Cache-Control", "public, max-age=86400"),
                       ("Content-Type", dataUriContentType sel.href),
                       ("Content-Length", toString (base64Decode payload).length),
                       ("X-Cache", "MISS"),
                       ("X-Execution-Time", toString env.dur ++ " ms")]
           body := Body.bytes (base64Decode payload) },
         cacheSet cache key ⟨base64Decode payload, dataUriContentType sel.href⟩
           (24 * 60 * 60 * 1000) env.reqTime)
      | none => fetchPathA env domain key hdrs cache sel.href
    else fetchPathA env domain key hdrs cache sel.href

/-- `hostname` computation of Variant A (route.ts lines 16-22): parse
`http://<domain>` and take the hostname, falling back to the raw domain
string when parsing fails. -/
def normalizeA (env : Env) (domain : String) : String :=
  match env.parseHost ("http://" ++ domain) with
  | some h => h
  | none => domain

/-- The Variant A `GET` handler (route.ts lines 9-167), returning the
response and the cache state after the request. -/
def getA (env : Env) (reqHeaders : List (String × String)) (domain : String)
    (cache : Cache) : Response × Cache :=
  match cacheGet cache (normalizeA env domain) env.reqTime with
  | some e => (hitResponse e env.dur, cache)
  | none =>
    if !(validate (normalizeA env domain)) then (svg404 domain, cache)
    else if (discoverIcons env (normalizeA env domain) (cleanHeaders reqHeaders)).length = 0 then
      (env.proxy (normalizeA env domain), cache)
    else
      resolveA env domain (normalizeA env domain) (cleanHeaders reqHeaders) cache
        (discoverIcons env (normalizeA env domain) (cleanHeaders reqHeaders))

/-- The Variant B remote-fetch path (route.ts lines 264-284). -/
def fetchPathB (env : Env) (domain : String) (hdrs : List (String × String))
    (href : String) : Response :=
  match env.fetchIcon href hdrs with
  | none => resp500
  | some fr =>
    if !fr.ok then svg404 domain
    else
      { status := 200
        headers := [("Cache-Control", "public, max-age=86400"),
                    ("Content-Type", ctDefault fr.contentType),
                    ("Content-Length", toString fr.body.length),
                    ("X-Execution-Time", toString env.dur ++ "ms")]
        body := Body.bytes fr.body }

/-- The Variant B icon-retrieval stage (route.ts lines 233-284): no cache
writes; the data-URI response also carries no `X-Cache` header. -/
def resolveB (env : Env) (domain : String) (hdrs : List (String × String))
    (icons : List Icon) : Response :=
  match icons.head? with
  | none => svg404 domain
  | some sel =>
    if includesDataImage sel.href then
      match commaPayload sel.href with
      | some payload =>
        { status := 200
          headers := [("Cache-Control", "public, max-age=86400"),
                      ("Content-Type", dataUriContentType sel.href),
                      ("Content-Length", toString (base64Decode payload).length),
                      ("X-Execution-Time", toString env.dur ++ " ms")]
          body := Body.bytes (base64Decode payload) }
      | none => fetchPathB env domain hdrs sel.href
    else fetchPathB env domain hdrs sel.href

/-- The post-normalization part of the Variant B handler (route.ts
lines 180-284), with `asciiDomain` the already-computed hostname. -/
def getBcore (env : Env) (reqHeaders : List (String × String))
    (domain asciiDomain : String) : Response :=
  if !(validate asciiDomain) then svg404 domain
  else if (discoverIcons env asciiDomain (cleanHeaders reqHeaders)).length = 0 then
    env.proxy asciiDomain
  else
    resolveB env domain (cleanHeaders reqHeaders)
      (discoverIcons env asciiDomain (cleanHeaders reqHeaders))

/-- The Variant B `GET` handler (route.ts lines 173-285).  Line 179 parses
`http://<domain>` with no surrounding try/catch, so a parse failure
propagates as an uncaught exception, modelled as `none`. -/
def getB (env : Env) (reqHeaders : List (String × String)) (domain : String) :
    Option Response :=
  match env.parseHost ("http://" ++ domain) with
  | none => none
  | some asciiDomain => some (getBcore env reqHeaders domain asciiDomain)

/-! ### Helper lemmas -/

theorem cacheGet_cacheSet_self (c : Cache) (k : String) (v : CacheEntry) (ttl t t' : Nat)
    (h : t' ≤ t + ttl) : cacheGet (cacheSet c k v ttl t) k t' = some v := by
  unfold cacheGet cacheSet
  rw [List.find?_cons_of_pos]
  · simpa using h
  · simp

theorem validate_of_cacheGet_some (c : Cache) (k : String) (t : Nat) (e : CacheEntry)
    (hc : cacheValid c) (hg : cacheGet c k t = some e) : validate k = true := by
  unfold cacheGet at hg
  cases hf : c.find? (fun p => p.1 == k) with
  | none => rw [hf] at hg; cases hg
  | some p =>
    have hpred := List.find?_some hf
    have hmem : p ∈ c := List.mem_of_find?_eq_some hf
    have hk : p.1 = k := by simpa using hpred
    rw [← hk]
    exact hc p hmem

theorem cacheGet_none_of_invalid (c : Cache) (k : String) (t : Nat)
    (hc : cacheValid c) (hk : validate k = false) : cacheGet c k t = none := by
  cases hg : cacheGet c k t with
  | none => rfl
  | some e =>
    have := validate_of_cacheGet_some c k t e hc hg
    rw [this] at hk
    cases hk

theorem cacheValid_cacheSet (c : Cache) (k : String) (v : CacheEntry) (ttl t : Nat)
    (hk : validate k = true) (hc : cacheValid c) : cacheValid (cacheSet c k v ttl t) := by
  intro p hp
  rcases List.mem_cons.mp hp with h | h
  · rw [h]; exact hk
  · exact hc p (List.mem_of_mem_filter h)

theorem normalizeA_congr (env₁ env₂ : Env) (domain : String)
    (h : env₂.parseHost ("http://" ++ domain) = env₁.parseHost ("http://" ++ domain)) :
    normalizeA env₂ domain = normalizeA env₁ domain := by
  unfold normalizeA
  rw [h]

theorem getA_hit (env : Env) (hdrs : List (String × String)) (domain : String) (cache : Cache)
    (e : CacheEntry) (h : cacheGet cache (normalizeA env domain) env.reqTime = some e) :
    getA env hdrs domain cache = (hitResponse e env.dur, cache) := by
  unfold getA
  rw [h]

theorem getA_resolve (env : Env) (hdrs : List (String × String)) (domain : String) (cache : Cache)
    (hm : cacheGet cache (normalizeA env domain) env.reqTime = none)
    (hv : validate (normalizeA env domain) = true)
    (hne : discoverIcons env (normalizeA env domain) (cleanHeaders hdrs) ≠ []) :
    getA env hdrs domain cache =
      resolveA env domain (normalizeA env domain) (cleanHeaders hdrs) cache
        (discoverIcons env (normalizeA env domain) (cleanHeaders hdrs)) := by
  unfold getA
  rw [hm, hv]
  simp [List.length_eq_zero, hne]

/-- A concrete environment in which every collaborator fails: URL parsing
throws, discovery rejects, the icon fetch throws. -/
def env0 : Env where
  parseHost := fun _ => none
  favicons := fun _ _ => none
  fetchIcon := fun _ _ => none
  proxy := fun _ => resp500
  reqTime := 0
  dur := 0

/-! ### Claims -/

/-- C1, counterexample: the claim asserts that in BOTH variants a URL-parse
failure falls back to the raw domain string and processing continues with no
error surfaced.  In Variant B (route.ts line 179) the `new URL` call is not
wrapped in try/catch, so on a domain whose parse fails the handler throws an
uncaught exception (modelled as `none`) instead of continuing. -/
theorem claim1_cex :
    env0.parseHost ("http://" ++ "bad domain") = none ∧
    getB env0 [] "bad domain" = none :=
  ⟨rfl, rfl⟩

/-- C1 (amended): when parsing `http://<domain>` fails, Variant A uses the
raw domain string unmodified and continues processing with no error
surfaced (a malformed domain degrades to the 404 placeholder), while in
Variant B the parse failure propagates as an uncaught error. -/
theorem claim1_parse_fallback (env : Env) (hdrs : List (String × String)) (domain : String)
    (cache : Cache) (hp : env.parseHost ("http://" ++ domain) = none) :
    normalizeA env domain = domain ∧
    (cacheGet cache domain env.reqTime = none → validate domain = false →
      getA env hdrs domain cache = (svg404 domain, cache)) ∧
    getB env hdrs domain = none := by
  have hn : normalizeA env domain = domain := by
    unfold normalizeA
    rw [hp]
  refine ⟨hn, fun hm hv => ?_, ?_⟩
  · unfold getA
    rw [hn, hm, hv]
    rfl
  · unfold getB
    rw [hp]

/-- C1 witness. -/
theorem claim1_witness :
    normalizeA env0 "bad domain" = "bad domain" ∧
    (cacheGet [] "bad domain" env0.reqTime = none → validate "bad domain" = false →
      getA env0 [] "bad domain" [] = (svg404 "bad domain", [])) ∧
    getB env0 [] "bad domain" = none :=
  claim1_parse_fallback env0 [] "bad domain" [] rfl

/-- C2: for a requested domain whose normalized hostname fails the
validation pattern, both variants return the 404 SVG placeholder — status
404, `Content-Type: image/svg+xml`, `Cache-Control: public, max-age=86400`,
body embedding the uppercased first character of the original unnormalized
input — and Variant A leaves the cache untouched.  The Variant A statement
assumes the cache invariant (only validated keys are ever stored, see C9),
which rules out a cache hit on the invalid key. -/
theorem claim2_invalid_404 (env : Env) (hdrs : List (String × String)) (domain : String)
    (cache : Cache) (hc : cacheValid cache)
    (hv : validate (normalizeA env domain) = false) :
    getA env hdrs domain cache =
      ({ status := 404
         headers := [("Cache-Control", "public, max-age=86400"),
                     ("Content-Type", "image/svg+xml")]
         body := Body.text (svgContent (upperFirst domain)) }, cache) ∧
    (∀ h, env.parseHost ("http://" ++ domain) = some h →
      getB env hdrs domain =
        some { status := 404
               headers := [("Cache-Control", "public, max-age=86400"),
                           ("Content-Type", "image/svg+xml")]
               body := Body.text (svgContent (upperFirst domain)) }) := by
  have hm : cacheGet cache (normalizeA env domain) env.reqTime = none :=
    cacheGet_none_of_invalid cache (normalizeA env domain) env.reqTime hc hv
  constructor
  · unfold getA
    rw [hm, hv]
    rfl
  · intro h hp
    have hh : normalizeA env domain = h := by
      unfold normalizeA
      rw [hp]
    rw [hh] at hv
    unfold getB
    rw [hp]
    show some (getBcore env hdrs domain h) = _
    unfold getBcore
    rw [hv]
    rfl

/-- C2 witness. -/
theorem claim2_witness :
    getA env0 [] "not_a_domain" [] =
      ({ status := 404
         headers := [("Cache-Control", "public, max-age=86400"),
                     ("Content-Type", "image/svg+xml")]
         body := Body.text (svgContent (upperFirst "not_a_domain")) }, []) ∧
    (∀ h, env0.parseHost ("http://" ++ "not_a_domain") = some h →
      getB env0 [] "not_a_domain" =
        some { status := 404
               headers := [("Cache-Control", "public, max-age=86400"),
                           ("Content-Type", "image/svg+xml")]
               body := Body.text (svgContent (upperFirst "not_a_domain")) }) :=
  claim2_invalid_404 env0 [] "not_a_domain" [] (by intro p hp; cases hp) (by decide)

theorem cacheValid_fetchPathA (env : Env) (domain key : String) (hdrs : List (String × String))
    (cache : Cache) (href : String) (r : Response) (c₁ : Cache)
    (hk : validate key = true) (hc : cacheValid cache)
    (h : fetchPathA env domain key hdrs cache href = (r, c₁)) : cacheValid c₁ := by
  unfold fetchPathA at h
  split at h
  · simp only [Prod.mk.injEq] at h
    rw [← h.2]
    exact hc
  · split at h
    · simp only [Prod.mk.injEq] at h
      rw [← h.2]
      exact hc
    · simp only [Prod.mk.injEq] at h
      rw [← h.2]
      exact cacheValid_cacheSet _ _ _ _ _ hk hc

theorem cacheValid_resolveA (env : Env) (domain key : String) (hdrs : List (String × String))
    (cache : Cache) (icons : List Icon) (r : Response) (c₁ : Cache)
    (hk : validate key = true) (hc : cacheValid cache)
    (h : resolveA env domain key hdrs cache icons = (r, c₁)) : cacheValid c₁ := by
  unfold resolveA at h
  split at h
  · simp only [Prod.mk.injEq] at h
    rw [← h.2]
    exact hc
  · split at h
    · split at h
      · simp only [Prod.mk.injEq] at h
        rw [← h.2]
        exact cacheValid_cacheSet _ _ _ _ _ hk hc
      · exact cacheValid_fetchPathA _ _ _ _ _ _ _ _ hk hc h
    · exact cacheValid_fetchPathA _ _ _ _ _ _ _ _ hk hc h

/-- C9: both cache writes of Variant A happen strictly after the validation
check succeeded, so every entry ever written is keyed by a hostname that
passed validation at write time (`cacheValid` is an invariant of `getA`);
consequently a cache hit — which executes before validation — only ever
serves a key that was valid when stored. -/
theorem claim9_cache_invariant (env : Env) (hdrs : List (String × String)) (domain : String)
    (cache : Cache) (r : Response) (c₁ : Cache)
    (hc : cacheValid cache) (hrun : getA env hdrs domain cache = (r, c₁)) :
    cacheValid c₁ ∧
    (∀ e, cacheGet cache (normalizeA env domain) env.reqTime = some e →
      validate (normalizeA env domain) = true) := by
  refine ⟨?_, fun e hg => validate_of_cacheGet_some _ _ _ e hc hg⟩
  unfold getA at hrun
  split at hrun
  · simp only [Prod.mk.injEq] at hrun
    rw [← hrun.2]
    exact hc
  · split at hrun
    · simp only [Prod.mk.injEq] at hrun
      rw [← hrun.2]
      exact hc
    · rename_i hvnot
      have hkValid : validate (normalizeA env domain) = true := by
        simpa using hvnot
      split at hrun
      · simp only [Prod.mk.injEq] at hrun
        rw [← hrun.2]
        exact hc
      · exact cacheValid_resolveA _ _ _ _ _ _ _ _ hkValid hc hrun

/-- C9 witness. -/
theorem claim9_witness :
    cacheValid ((getA env0 [] "not_a_domain" []).2) ∧
    (∀ e, cacheGet [] (normalizeA env0 "not_a_domain") env0.reqTime = some e →
      validate (normalizeA env0 "not_a_domain") = true) :=
  claim9_cache_invariant env0 [] "not_a_domain" [] (getA env0 [] "not_a_domain" []).1
    (getA env0 [] "not_a_domain" []).2 (by intro p hp; cases hp) rfl

theorem checkRev_append (bs : List Char) (d : Char) (rest : List Char)
    (hb : ∀ c ∈ bs, isAlnum c = true) (hd : isLdh d = true) :
    checkRev (bs ++ '.' :: d :: rest) = true := by
  induction bs with
  | nil =>
    have h1 : isAlnum '.' = false := by decide
    simp [checkRev, h1, hd]
  | cons c cs ih =>
    have hc := hb c (by simp)
    simp only [List.cons_append, checkRev, hc, if_pos]
    exact ih (fun x hx => hb x (by simp [hx]))

theorem validate_suffix (p a b : List Char) (ha : a ≠ [])
    (hla : ∀ c ∈ a, isLdh c = true) (hb : b ≠ [])
    (hab : ∀ c ∈ b, isAlnum c = true) :
    validate (String.mk (p ++ a ++ '.' :: b)) = true := by
  obtain ⟨c, bs, hb'⟩ : ∃ c bs, b.reverse = c :: bs := by
    cases hbr : b.reverse with
    | nil => exact absurd (List.reverse_eq_nil_iff.mp hbr) hb
    | cons x xs => exact ⟨x, xs, rfl⟩
  obtain ⟨d, as, ha'⟩ : ∃ d as, a.reverse = d :: as := by
    cases har : a.reverse with
    | nil => exact absurd (List.reverse_eq_nil_iff.mp har) ha
    | cons x xs => exact ⟨x, xs, rfl⟩
  have hc : isAlnum c = true := by
    refine hab c (List.mem_reverse.mp ?_)
    rw [hb']
    exact List.mem_cons_self c bs
  have hd : isLdh d = true := by
    refine hla d (List.mem_reverse.mp ?_)
    rw [ha']
    exact List.mem_cons_self d as
  have hbs : ∀ x ∈ bs, isAlnum x = true := by
    intro x hx
    refine hab x (List.mem_reverse.mp ?_)
    rw [hb']
    exact List.mem_cons_of_mem c hx
  have hrev : (String.mk (p ++ a ++ '.' :: b)).data.reverse =
      c :: (bs ++ '.' :: d :: (as ++ p.reverse)) := by
    show (p ++ a ++ '.' :: b).reverse = _
    rw [List.reverse_append, List.reverse_append, List.reverse_cons, hb', ha']
    simp
  unfold validate
  rw [hrev]
  simp only [hc, Bool.true_and]
  exact checkRev_append bs d (as ++ p.reverse) hbs hd

/-- C10: the validation regular expression is anchored only at the end of
the string, so any hostname ending in a `[a-z0-9-]` character, a dot, and a
nonempty `[a-z0-9]` run passes, regardless of what precedes that suffix; in
particular `a_b.example.com` (underscore and all) passes validation, and a
request normalizing to it proceeds to the discovery stage rather than
receiving the 404 placeholder. -/
theorem claim10_validation_suffix_only :
    (∀ (p a b : List Char), a ≠ [] → (∀ c ∈ a, isLdh c = true) →
      b ≠ [] → (∀ c ∈ b, isAlnum c = true) →
      validate (String.mk (p ++ a ++ '.' :: b)) = true) ∧
    validate "a_b.example.com" = true ∧
    (∀ (env : Env) (hdrs : List (String × String)) (domain : String) (cache : Cache),
      normalizeA env domain = "a_b.example.com" →
      cacheGet cache "a_b.example.com" env.reqTime = none →
      getA env hdrs domain cache =
        (if (discoverIcons env "a_b.example.com" (cleanHeaders hdrs)).length = 0 then
          (env.proxy "a_b.example.com", cache)
        else
          resolveA env domain "a_b.example.com" (cleanHeaders hdrs) cache
            (discoverIcons env "a_b.example.com" (cleanHeaders hdrs)))) := by
  refine ⟨validate_suffix, by decide, ?_⟩
  intro env hdrs domain cache hn hm
  unfold getA
  rw [hn, hm]
  have hv : validate "a_b.example.com" = true := by decide
  rw [hv]
  rfl

/-- C10 witness. -/
theorem claim10_witness :
    validate (String.mk (['!', '@'] ++ ['a', '-'] ++ '.' :: ['c', 'o', 'm'])) = true ∧
    getA { env0 with parseHost := fun _ => some "a_b.example.com" } [] "a_b.example.com" [] =
      (resp500, []) := by
  constructor
  · exact claim10_validation_suffix_only.1 ['!', '@'] ['a', '-'] ['c', 'o', 'm']
      (by decide) (by decide) (by decide) (by decide)
  · have h := claim10_validation_suffix_only.2.2
      { env0 with parseHost := fun _ => some "a_b.example.com" } [] "a_b.example.com" []
      rfl rfl
    rw [h]
    rfl

/-- C4: discovery tries `http://<key>` first; the `https://<key>` attempt is
made if and only if the first attempt yielded zero icons (a rejected
discovery call counts as zero); and when both attempts yield zero icons the
handler returns the proxy-favicon collaborator's response verbatim, in both
variants. -/
theorem claim4_discovery_order :
    (∀ (env₁ env₂ : Env) (key : String) (hdrs : List (String × String)),
      env₂.favicons ("http://" ++ key) hdrs = env₁.favicons ("http://" ++ key) hdrs →
      attemptIcons env₁ ("http://" ++ key) hdrs ≠ [] →
      discoverIcons env₁ key hdrs = attemptIcons env₁ ("http://" ++ key) hdrs ∧
      discoverIcons env₂ key hdrs = discoverIcons env₁ key hdrs) ∧
    (∀ (env : Env) (key : String) (hdrs : List (String × String)),
      attemptIcons env ("http://" ++ key) hdrs = [] →
      discoverIcons env key hdrs = attemptIcons env ("https://" ++ key) hdrs) ∧
    (∀ (env : Env) (hdrs : List (String × String)) (domain : String) (cache : Cache),
      cacheGet cache (normalizeA env domain) env.reqTime = none →
      validate (normalizeA env domain) = true →
      attemptIcons env ("http://" ++ normalizeA env domain) (cleanHeaders hdrs) = [] →
      attemptIcons env ("https://" ++ normalizeA env domain) (cleanHeaders hdrs) = [] →
      getA env hdrs domain cache = (env.proxy (normalizeA env domain), cache) ∧
      (∀ h, env.parseHost ("http://" ++ domain) = some h →
        getB env hdrs domain = some (env.proxy h))) := by
  refine ⟨?_, ?_, ?_⟩
  · intro env₁ env₂ key hdrs hagree hne
    have hd1 : discoverIcons env₁ key hdrs = attemptIcons env₁ ("http://" ++ key) hdrs := by
      unfold discoverIcons
      rw [if_neg]
      simpa [List.length_eq_zero] using hne
    have hat : attemptIcons env₂ ("http://" ++ key) hdrs =
        attemptIcons env₁ ("http://" ++ key) hdrs := by
      unfold attemptIcons
      rw [hagree]
    have hd2 : discoverIcons env₂ key hdrs = attemptIcons env₂ ("http://" ++ key) hdrs := by
      unfold discoverIcons
      rw [if_neg]
      rw [hat]
      simpa [List.length_eq_zero] using hne
    exact ⟨hd1, by rw [hd2, hat, hd1]⟩
  · intro env key hdrs hz
    unfold discoverIcons
    rw [if_pos]
    rw [hz]
    rfl
  · intro env hdrs domain cache hm hv h1 h2
    have hdisc : discoverIcons env (normalizeA env domain) (cleanHeaders hdrs) = [] := by
      unfold discoverIcons
      rw [h1, h2]
      rfl
    constructor
    · unfold getA
      rw [hm, hv, hdisc]
      rfl
    · intro h hp
      have hh : normalizeA env domain = h := by
        unfold normalizeA
        rw [hp]
      rw [hh] at hv hdisc
      unfold getB
      rw [hp]
      show some (getBcore env hdrs domain h) = _
      unfold getBcore
      rw [hv, hdisc]
      rfl

/-- C4 witness (both-zero case, Variant A and B): in `env4w` both discovery
attempts reject, so the handler returns the proxy response. -/
theorem claim4_witness :
    getA { env0 with parseHost := fun _ => some "example.com" } [] "example.com" [] =
      (({ env0 with parseHost := fun _ => some "example.com" } : Env).proxy
        (normalizeA { env0 with parseHost := fun _ => some "example.com" } "example.com"), []) ∧
    (∀ h, ({ env0 with parseHost := fun _ => some "example.com" } : Env).parseHost
        ("http://" ++ "example.com") = some h →
      getB { env0 with parseHost := fun _ => some "example.com" } [] "example.com" =
        some (({ env0 with parseHost := fun _ => some "example.com" } : Env).proxy h)) :=
  claim4_discovery_order.2.2 { env0 with parseHost := fun _ => some "example.com" } []
    "example.com" [] rfl (by decide) rfl rfl

/-- C8: whenever the discovered icon list is non-empty, both variants
select exactly its first descriptor: the retrieval stage's result depends
only on the head's `href` — the tail of the list and the declared `sizes`
are ignored, so no ranking by size or type takes place. -/
theorem claim8_first_icon (env : Env) (domain key : String) (hdrs : List (String × String))
    (cache : Cache) (h : String) (s : Option String) (rest : List Icon) :
    resolveA env domain key hdrs cache ({ href := h, sizes := s } :: rest) =
      resolveA env domain key hdrs cache [{ href := h, sizes := none }] ∧
    resolveB env domain hdrs ({ href := h, sizes := s } :: rest) =
      resolveB env domain hdrs [{ href := h, sizes := none }] :=
  ⟨rfl, rfl⟩

theorem lazyToSemi_no_semi (ts rest : List Char)
    (h : ∀ c ∈ ts, ¬(c = ';' ∨ isLineTerm c)) :
    lazyToSemi (ts ++ ';' :: rest) = some (ts, rest) := by
  induction ts with
  | nil => simp [lazyToSemi]
  | cons c cs ih =>
    have hc := h c (by simp)
    push_neg at hc
    rw [List.cons_append]
    unfold lazyToSemi
    rw [if_neg hc.1, if_neg hc.2]
    rw [ih (fun x hx => h x (by simp [hx]))]

theorem dropLine_eq_nil (rs : List Char) (h : ∀ c ∈ rs, ¬isLineTerm c) :
    dropLine rs = [] := by
  induction rs with
  | nil => rfl
  | cons c cs ih =>
    unfold dropLine
    rw [if_neg (h c (by simp))]
    exact ih (fun x hx => h x (by simp [hx]))

theorem replaceScan_head_match (l cap after : List Char) (hl : l ≠ [])
    (h : tryMatchAt l = some (cap, after)) : replaceScan l = cap ++ after := by
  cases l with
  | nil => exact absurd rfl hl
  | cons c cs =>
    unfold replaceScan
    rw [h]

/-- For a href of the shape `data:image<t>;<rest>` (with `<t>` free of `;`
and line terminators and `<rest>` free of line terminators), the regex
replacement used for the `Content-Type` yields exactly the declared media
type `image<t>`. -/
theorem dataUriContentType_decl (t rest : String)
    (ht : ∀ c ∈ t.data, ¬(c = ';' ∨ isLineTerm c))
    (hr : ∀ c ∈ rest.data, ¬isLineTerm c) :
    dataUriContentType ("data:image" ++ t ++ ";" ++ rest) = "image" ++ t := by
  have hdata : ("data:image" ++ t ++ ";" ++ rest).data
      = "data:image".data ++ (t.data ++ ';' :: rest.data) := by
    simp
  have hmatch : tryMatchAt ("data:image".data ++ (t.data ++ ';' :: rest.data)) =
      some ("image".data ++ t.data, []) := by
    unfold tryMatchAt
    rw [if_pos]
    · rw [List.drop_left' (by rfl), lazyToSemi_no_semi t.data rest.data ht]
      show some ("image".data ++ t.data, dropLine rest.data) = _
      rw [dropLine_eq_nil rest.data hr]
    · simp
  unfold dataUriContentType
  rw [hdata, replaceScan_head_match _ _ _ (by simp) hmatch, List.append_nil]
  show String.mk (("image" ++ t).data) = "image" ++ t
  rfl

/-- C5: when the selected icon's href is an inline data-URI (contains
`data:image`) with a nonempty payload after the first comma, both variants
answer with the base64-decoded payload as body and the media type extracted
from the `data:<type>;...` prefix as `Content-Type` (the third conjunct
identifies that extraction with the declared type); when the payload
segment is absent or empty, both variants fall through to the remote-fetch
path applied to the same descriptor's href. -/
theorem claim5_datauri (env : Env) (domain key : String) (hdrs : List (String × String))
    (cache : Cache) (icons : List Icon) (sel : Icon)
    (hsel : icons.head? = some sel) (hinc : includesDataImage sel.href = true) :
    (∀ payload, commaPayload sel.href = some payload →
      (resolveA env domain key hdrs cache icons).1.body = Body.bytes (base64Decode payload) ∧
      hasHeader (resolveA env domain key hdrs cache icons).1 "Content-Type"
        (dataUriContentType sel.href) ∧
      (resolveB env domain hdrs icons).body = Body.bytes (base64Decode payload) ∧
      hasHeader (resolveB env domain hdrs icons) "Content-Type"
        (dataUriContentType sel.href)) ∧
    (commaPayload sel.href = none →
      resolveA env domain key hdrs cache icons = fetchPathA env domain key hdrs cache sel.href ∧
      resolveB env domain hdrs icons = fetchPathB env domain hdrs sel.href) ∧
    (∀ t rest, sel.href = "data:image" ++ t ++ ";" ++ rest →
      (∀ c ∈ t.data, ¬(c = ';' ∨ isLineTerm c)) →
      (∀ c ∈ rest.data, ¬isLineTerm c) →
      dataUriContentType sel.href = "image" ++ t) := by
  refine ⟨?_, ?_, ?_⟩
  · intro payload hcp
    refine ⟨?_, ?_, ?_, ?_⟩ <;>
      simp [resolveA, resolveB, hsel, hinc, hcp, hasHeader]
  · intro hcp
    constructor <;> simp [resolveA, resolveB, hsel, hinc, hcp]
  · intro t rest heq ht hr
    rw [heq]
    exact dataUriContentType_decl t rest ht hr

/-- C5 witness. -/
theorem claim5_witness :
    ((resolveA env0 "example.com" "example.com" [] []
        [{ href := "data:image/png;base64,AAAA", sizes := none }]).1.body =
      Body.bytes (base64Decode "AAAA") ∧
      hasHeader (resolveA env0 "example.com" "example.com" [] []
        [{ href := "data:image/png;base64,AAAA", sizes := none }]).1 "Content-Type"
        (dataUriContentType "data:image/png;base64,AAAA") ∧
      (resolveB env0 "example.com" []
        [{ href := "data:image/png;base64,AAAA", sizes := none }]).body =
      Body.bytes (base64Decode "AAAA") ∧
      hasHeader (resolveB env0 "example.com" []
        [{ href := "data:image/png;base64,AAAA", sizes := none }]) "Content-Type"
        (dataUriContentType "data:image/png;base64,AAAA")) ∧
    dataUriContentType "data:image/png;base64,AAAA" = "image" ++ "/png" := by
  constructor
  · exact (claim5_datauri env0 "example.com" "example.com" [] []
      [{ href := "data:image/png;base64,AAAA", sizes := none }]
      { href := "data:image/png;base64,AAAA", sizes := none }
      rfl (by decide)).1 "AAAA" (by decide)
  · exact (claim5_datauri env0 "example.com" "example.com" [] []
      [{ href := "data:image/png;base64,AAAA", sizes := none }]
      { href := "data:image/png;base64,AAAA", sizes := none }
      rfl (by decide)).2.2 "/png" "base64,AAAA" (by decide) (by decide) (by decide)

/-- C6: on the remote-fetch path, a non-ok upstream status yields the SVG
placeholder in both variants (not a 500 and not a passthrough of the
upstream response); an ok status yields the fetched bytes as body with the
upstream `Content-Type`, defaulting to `image/png` when the header is
absent. -/
theorem claim6_fetch (env : Env) (domain key : String) (hdrs : List (String × String))
    (cache : Cache) (href : String) (fr : Fetched)
    (hf : env.fetchIcon href hdrs = some fr) :
    (fr.ok = false →
      fetchPathA env domain key hdrs cache href = (svg404 domain, cache) ∧
      fetchPathB env domain hdrs href = svg404 domain) ∧
    (fr.ok = true →
      (fetchPathA env domain key hdrs cache href).1.body = Body.bytes fr.body ∧
      hasHeader (fetchPathA env domain key hdrs cache href).1 "Content-Type"
        (ctDefault fr.contentType) ∧
      (fetchPathB env domain hdrs href).body = Body.bytes fr.body ∧
      hasHeader (fetchPathB env domain hdrs href) "Content-Type"
        (ctDefault fr.contentType)) ∧
    (fr.contentType = none → ctDefault fr.contentType = "image/png") := by
  refine ⟨?_, ?_, ?_⟩
  · intro ho
    constructor <;> simp [fetchPathA, fetchPathB, hf, ho]
  · intro ho
    refine ⟨?_, ?_, ?_, ?_⟩ <;> simp [fetchPathA, fetchPathB, hf, ho, hasHeader]
  · intro ho
    rw [ho]
    rfl

/-- An environment whose icon fetch answers with an upstream failure
status. -/
def envFetch404 : Env :=
  { env0 with fetchIcon := fun _ _ => some { ok := false, body := [], contentType := none } }

/-- An environment whose icon fetch succeeds with two bytes of `image/gif`
content. -/
def envFetchOk : Env :=
  { env0 with fetchIcon := fun _ _ => some { ok := true, body := [9, 8], contentType := some "image/gif" } }

/-- C6 witness. -/
theorem claim6_witness :
    (fetchPathA envFetch404 "d" "k" [] [] "http://e.com/i.png" = (svg404 "d", []) ∧
      fetchPathB envFetch404 "d" [] "http://e.com/i.png" = svg404 "d") ∧
    ((fetchPathA envFetchOk "d" "k" [] [] "http://e.com/i.png").1.body = Body.bytes [9, 8] ∧
      hasHeader (fetchPathA envFetchOk "d" "k" [] [] "http://e.com/i.png").1 "Content-Type"
        (ctDefault (some "image/gif")) ∧
      (fetchPathB envFetchOk "d" [] "http://e.com/i.png").body = Body.bytes [9, 8] ∧
      hasHeader (fetchPathB envFetchOk "d" [] "http://e.com/i.png") "Content-Type"
        (ctDefault (some "image/gif"))) ∧
    ctDefault (none : Option String) = "image/png" := by
  refine ⟨?_, ?_, ?_⟩
  · exact (claim6_fetch envFetch404 "d" "k" [] [] "http://e.com/i.png"
      { ok := false, body := [], contentType := none } rfl).1 rfl
  · exact (claim6_fetch envFetchOk "d" "k" [] [] "http://e.com/i.png"
      { ok := true, body := [9, 8], contentType := some "image/gif" } rfl).2.1 rfl
  · exact (claim6_fetch envFetch404 "d" "k" [] [] "http://e.com/i.png"
      { ok := false, body := [], contentType := none } rfl).2.2 rfl

/-- An environment that discovers a single inline data-URI icon. -/
def envDataUri : Env where
  parseHost := fun _ => some "example.com"
  favicons := fun _ _ => some [{ href := "data:image/png;base64,AAAA", sizes := none }]
  fetchIcon := fun _ _ => none
  proxy := fun _ => resp500
  reqTime := 1000
  dur := 5

/-- C7, counterexample: the claim asserts that Variant B omits the explicit
`Content-Length` header on the data-URI success path, but route.ts line 253
sets it there: on a concrete data-URI icon the Variant B response carries
`Content-Length: 3`. -/
theorem claim7_cex :
    getB envDataUri [] "example.com" =
      some { status := 200
             headers := [("Cache-Control", "public, max-age=86400"),
                         ("Content-Type", "image/png"),
                         ("Content-Length", "3"),
                         ("X-Execution-Time", "5 ms")]
             body := Body.bytes [0, 0, 0] } ∧
    hasHeader (getBcore envDataUri [] "example.com" "example.com") "Content-Length" "3" := by
  constructor
  · rfl
  · show _ ∈ _
    decide

theorem fetchPathA_cl (env : Env) (domain key : String) (hdrs : List (String × String))
    (cache : Cache) (href : String) (r : Response) (c₁ : Cache)
    (h : fetchPathA env domain key hdrs cache href = (r, c₁)) (hst : r.status = 200) :
    ∃ b, r.body = Body.bytes b ∧ hasHeader r "Content-Length" (toString b.length) := by
  unfold fetchPathA at h
  split at h
  · simp only [Prod.mk.injEq] at h
    rw [← h.1] at hst
    simp [resp500] at hst
  · split at h
    · simp only [Prod.mk.injEq] at h
      rw [← h.1] at hst
      simp [svg404] at hst
    · rename_i fr hfeq hok
      simp only [Prod.mk.injEq] at h
      refine ⟨fr.body, ?_, ?_⟩ <;> rw [← h.1] <;> simp [hasHeader]

theorem fetchPathB_cl (env : Env) (domain : String) (hdrs : List (String × String))
    (href : String) (hst : (fetchPathB env domain hdrs href).status = 200) :
    ∃ b, (fetchPathB env domain hdrs href).body = Body.bytes b ∧
      hasHeader (fetchPathB env domain hdrs href) "Content-Length" (toString b.length) := by
  obtain ⟨r, hr⟩ : ∃ r, fetchPathB env domain hdrs href = r := ⟨_, rfl⟩
  rw [hr] at hst ⊢
  unfold fetchPathB at hr
  split at hr
  · rw [← hr] at hst
    simp [resp500] at hst
  · split at hr
    · rw [← hr] at hst
      simp [svg404] at hst
    · rename_i fr hfeq hok
      refine ⟨fr.body, ?_, ?_⟩ <;> rw [← hr] <;> simp [hasHeader]

/-- C7 (amended): Variant A sets an explicit `Content-Length` equal to the
byte count on every success path (cache hit and both resolution paths);
Variant B, contrary to the claim, also sets it on BOTH success paths,
including the data-URI one (route.ts line 253). -/
theorem claim7_content_length :
    (∀ (e : CacheEntry) (dur : Nat),
      hasHeader (hitResponse e dur) "Content-Length" (toString e.buffer.length)) ∧
    (∀ (env : Env) (domain key : String) (hdrs : List (String × String)) (cache : Cache)
        (icons : List Icon) (r : Response) (c₁ : Cache),
      resolveA env domain key hdrs cache icons = (r, c₁) → r.status = 200 →
      ∃ b, r.body = Body.bytes b ∧ hasHeader r "Content-Length" (toString b.length)) ∧
    (∀ (env : Env) (domain : String) (hdrs : List (String × String)) (icons : List Icon),
      (resolveB env domain hdrs icons).status = 200 →
      ∃ b, (resolveB env domain hdrs icons).body = Body.bytes b ∧
        hasHeader (resolveB env domain hdrs icons) "Content-Length" (toString b.length)) := by
  refine ⟨?_, ?_, ?_⟩
  · intro e dur
    simp [hasHeader, hitResponse]
  · intro env domain key hdrs cache icons r c₁ h hst
    unfold resolveA at h
    split at h
    · simp only [Prod.mk.injEq] at h
      rw [← h.1] at hst
      simp [svg404] at hst
    · split at h
      · split at h
        · rename_i payload hcp
          simp only [Prod.mk.injEq] at h
          refine ⟨base64Decode payload, ?_, ?_⟩ <;> rw [← h.1] <;> simp [hasHeader]
        · exact fetchPathA_cl _ _ _ _ _ _ _ _ h hst
      · exact fetchPathA_cl _ _ _ _ _ _ _ _ h hst
  · intro env domain hdrs icons hst
    obtain ⟨r, hr⟩ : ∃ r, resolveB env domain hdrs icons = r := ⟨_, rfl⟩
    rw [hr] at hst ⊢
    unfold resolveB at hr
    split at hr
    · rw [← hr] at hst
      simp [svg404] at hst
    · split at hr
      · split at hr
        · rename_i payload hcp
          refine ⟨base64Decode payload, ?_, ?_⟩ <;> rw [← hr] <;> simp [hasHeader]
        · rw [← hr] at hst ⊢
          exact fetchPathB_cl _ _ _ _ hst
      · rw [← hr] at hst ⊢
        exact fetchPathB_cl _ _ _ _ hst

/-- C7 witness. -/
theorem claim7_witness :
    hasHeader (hitResponse ⟨[1, 2, 3], "image/png"⟩ 0) "Content-Length"
      (toString ([1, 2, 3] : List Nat).length) ∧
    (∃ b, (Body.bytes [0, 0, 0] : Body) = Body.bytes b ∧
      hasHeader { status := 200
                  headers := [("Cache-Control", "public, max-age=86400"),
                              ("Content-Type", "image/png"),
                              ("Content-Length", "3"),
                              ("X-Cache", "MISS"),
                              ("X-Execution-Time", "0 ms")]
                  body := Body.bytes [0, 0, 0] } "Content-Length" (toString b.length)) ∧
    (∃ b, (resolveB env0 "example.com" []
        [{ href := "data:image/png;base64,AAAA", sizes := none }]).body = Body.bytes b ∧
      hasHeader (resolveB env0 "example.com" []
        [{ href := "data:image/png;base64,AAAA", sizes := none }]) "Content-Length"
        (toString b.length)) := by
  refine ⟨claim7_content_length.1 ⟨[1, 2, 3], "image/png"⟩ 0, ?_, ?_⟩
  · have h := claim7_content_length.2.1 env0 "example.com" "example.com" [] []
      [{ href := "data:image/png;base64,AAAA", sizes := none }]
      { status := 200
        headers := [("Cache-Control", "public, max-age=86400"),
                    ("Content-Type", "image/png"),
                    ("Content-Length", "3"),
                    ("X-Cache", "MISS"),
                    ("X-Execution-Time", "0 ms")]
        body := Body.bytes [0, 0, 0] }
      [("example.com", ⟨⟨[0, 0, 0], "image/png"⟩, 86400000⟩)] rfl rfl
    simpa using h
  · exact claim7_content_length.2.2 env0 "example.com" []
      [{ href := "data:image/png;base64,AAAA", sizes := none }] rfl

theorem fetchPathA_write (env : Env) (domain key : String) (hdrs : List (String × String))
    (cache : Cache) (href : String) (r : Response) (c₁ : Cache)
    (h : fetchPathA env domain key hdrs cache href = (r, c₁)) (hst : r.status = 200) :
    ∃ e : CacheEntry,
      c₁ = cacheSet cache key e (24 * 60 * 60 * 1000) env.reqTime ∧
      r.body = Body.bytes e.buffer ∧
      hasHeader r "Content-Type" e.contentType ∧
      hasHeader r "X-Cache" "MISS" := by
  unfold fetchPathA at h
  split at h
  · simp only [Prod.mk.injEq] at h
    rw [← h.1] at hst
    simp [resp500] at hst
  · split at h
    · simp only [Prod.mk.injEq] at h
      rw [← h.1] at hst
      simp [svg404] at hst
    · rename_i fr hfeq hok
      simp only [Prod.mk.injEq] at h
      refine ⟨⟨fr.body, ctDefault fr.contentType⟩, h.2.symm, ?_, ?_, ?_⟩ <;>
        rw [← h.1] <;> simp [hasHeader]

/-- C3: when a Variant A request misses the cache, passes validation,
discovers at least one icon and resolves icon bytes successfully (status
200), the resolved bytes and content type are written to the cache under
the normalized domain with a 24-hour expiry; and a subsequent request for
the same domain within the TTL — under ANY environment that agrees on URL
parsing, in particular one whose discovery, fetch and proxy collaborators
are arbitrary, so none of those steps can influence the result — returns
exactly the cached bytes and content type with an `X-Cache: HIT` header,
leaving the cache unchanged. -/
theorem claim3_cache_roundtrip (env₁ env₂ : Env) (h₁ h₂ : List (String × String))
    (domain : String) (cache : Cache) (r : Response) (c₁ : Cache)
    (hmiss : cacheGet cache (normalizeA env₁ domain) env₁.reqTime = none)
    (hv : validate (normalizeA env₁ domain) = true)
    (hne : discoverIcons env₁ (normalizeA env₁ domain) (cleanHeaders h₁) ≠ [])
    (hrun : getA env₁ h₁ domain cache = (r, c₁))
    (hst : r.status = 200)
    (hsame : env₂.parseHost ("http://" ++ domain) = env₁.parseHost ("http://" ++ domain))
    (ht : env₂.reqTime ≤ env₁.reqTime + 24 * 60 * 60 * 1000) :
    ∃ e : CacheEntry,
      c₁ = cacheSet cache (normalizeA env₁ domain) e (24 * 60 * 60 * 1000) env₁.reqTime ∧
      r.body = Body.bytes e.buffer ∧
      hasHeader r "Content-Type" e.contentType ∧
      hasHeader r "X-Cache" "MISS" ∧
      getA env₂ h₂ domain c₁ = (hitResponse e env₂.dur, c₁) ∧
      (hitResponse e env₂.dur).body = Body.bytes e.buffer ∧
      hasHeader (hitResponse e env₂.dur) "X-Cache" "HIT" := by
  have hres : resolveA env₁ domain (normalizeA env₁ domain) (cleanHeaders h₁) cache
      (discoverIcons env₁ (normalizeA env₁ domain) (cleanHeaders h₁)) = (r, c₁) := by
    rw [← getA_resolve env₁ h₁ domain cache hmiss hv hne]
    exact hrun
  have hsuff : ∃ e : CacheEntry,
      c₁ = cacheSet cache (normalizeA env₁ domain) e (24 * 60 * 60 * 1000) env₁.reqTime ∧
      r.body = Body.bytes e.buffer ∧
      hasHeader r "Content-Type" e.contentType ∧
      hasHeader r "X-Cache" "MISS" := by
    unfold resolveA at hres
    split at hres
    · rename_i hnone
      exact absurd (List.head?_eq_none_iff.mp hnone) hne
    · rename_i sel hselEq
      split at hres
      · split at hres
        · rename_i payload hcp
          simp only [Prod.mk.injEq] at hres
          refine ⟨⟨base64Decode payload, dataUriContentType sel.href⟩, hres.2.symm, ?_, ?_, ?_⟩ <;>
            rw [← hres.1] <;> simp [hasHeader]
        · exact fetchPathA_write _ _ _ _ _ _ _ _ hres hst
      · exact fetchPathA_write _ _ _ _ _ _ _ _ hres hst
  obtain ⟨e, hce, hbody, hct, hxc⟩ := hsuff
  refine ⟨e, hce, hbody, hct, hxc, ?_, rfl, by simp [hasHeader, hitResponse]⟩
  have hn2 : normalizeA env₂ domain = normalizeA env₁ domain :=
    normalizeA_congr env₁ env₂ domain hsame
  have hget : cacheGet c₁ (normalizeA env₂ domain) env₂.reqTime = some e := by
    rw [hn2, hce]
    exact cacheGet_cacheSet_self _ _ _ _ _ _ ht
  exact getA_hit env₂ h₂ domain c₁ e hget

/-- A second-request environment for the C3 witness: it agrees with
`envDataUri` on URL parsing but its discovery and fetch collaborators fail
and its clock sits at the far end of the TTL window. -/
def envAfter : Env :=
  { envDataUri with
    favicons := fun _ _ => none
    fetchIcon := fun _ _ => none
    reqTime := 86401000
    dur := 7 }

/-- C3 witness. -/
theorem claim3_witness :
    ∃ e : CacheEntry,
      ([("example.com", ⟨⟨[0, 0, 0], "image/png"⟩, 86401000⟩)] : Cache) =
        cacheSet [] (normalizeA envDataUri "example.com") e (24 * 60 * 60 * 1000)
          envDataUri.reqTime ∧
      ({ status := 200
         headers := [("Cache-Control", "public, max-age=86400"),
                     ("Content-Type", "image/png"),
                     ("Content-Length", "3"),
                     ("X-Cache", "MISS"),
                     ("X-Execution-Time", "5 ms")]
         body := Body.bytes [0, 0, 0] } : Response).body = Body.bytes e.buffer ∧
      hasHeader { status := 200
                  headers := [("Cache-Control", "public, max-age=86400"),
                              ("Content-Type", "image/png"),
                              ("Content-Length", "3"),
                              ("X-Cache", "MISS"),
                              ("X-Execution-Time", "5 ms")]
                  body := Body.bytes [0, 0, 0] } "Content-Type" e.contentType ∧
      hasHeader { status := 200
                  headers := [("Cache-Control", "public, max-age=86400"),
                              ("Content-Type", "image/png"),
                              ("Content-Length", "3"),
                              ("X-Cache", "MISS"),
                              ("X-Execution-Time", "5 ms")]
                  body := Body.bytes [0, 0, 0] } "X-Cache" "MISS" ∧
      getA envAfter [] "example.com"
          [("example.com", ⟨⟨[0, 0, 0], "image/png"⟩, 86401000⟩)] =
        (hitResponse e envAfter.dur,
          [("example.com", ⟨⟨[0, 0, 0], "image/png"⟩, 86401000⟩)]) ∧
      (hitResponse e envAfter.dur).body = Body.bytes e.buffer ∧
      hasHeader (hitResponse e envAfter.dur) "X-Cache" "HIT" :=
  claim3_cache_roundtrip envDataUri envAfter [] [] "example.com" [] _ _
    rfl (by decide) (by decide) rfl rfl rfl (by decide)

end Favicon
